import Mathlib

/-!
Shallow embedding of the ofetch request pipeline (src/fetch.ts, src/utils.ts,
src/error.ts) in Lean 4, together with theorems settling the specification
claims about retry policy, option resolution, body preparation, response
decoding and error normalization.
-/

set_option maxRecDepth 4096

namespace Ofetch

/-! ## JavaScript value model (for bodies passed to the pipeline) -/

/-- Model of a JavaScript runtime value as far as the pipeline inspects it:
`typeof`, `Array.isArray`, truthiness, property lookup (`buffer`, `pipeTo`,
`pipe`), `constructor.name` and presence of a `toJSON` function. -/
inductive JSValue where
  | undefined
  | null
  | str (s : String)
  | num (n : Int)
  | boolean (b : Bool)
  | bigintVal
  | functionVal
  | symbolVal
  | arr (elems : List JSValue)
  | obj (fields : List (String × JSValue)) (ctorName : Option String) (hasToJSON : Bool)

/-- The JavaScript `typeof` operator on the modelled values. -/
def jsTypeof : JSValue → String
  | .undefined => "undefined"
  | .null => "object"
  | .str _ => "string"
  | .num _ => "number"
  | .boolean _ => "boolean"
  | .bigintVal => "bigint"
  | .functionVal => "function"
  | .symbolVal => "symbol"
  | .arr _ => "object"
  | .obj _ _ _ => "object"

/-- `Array.isArray`. -/
def isArray : JSValue → Bool
  | .arr _ => true
  | _ => false

/-- JavaScript truthiness of a value. -/
def jsTruthy : JSValue → Bool
  | .undefined => false
  | .null => false
  | .str s => s ≠ ""
  | .num n => n ≠ 0
  | .boolean b => b
  | .bigintVal => true
  | .functionVal => true
  | .symbolVal => true
  | .arr _ => true
  | .obj _ _ _ => true

/-- Property read on an object field list; missing fields read as `undefined`. -/
def getFieldD (fields : List (String × JSValue)) (k : String) : JSValue :=
  match fields.lookup k with
  | some v => v
  | none => .undefined

/-- `isJSONSerializable` from src/utils.ts. The source tests
`t === "string" || t === "number" || t === "boolean" || t === null`; the last
disjunct compares the string result of `typeof` with `null` and never holds,
so it is not represented. Property access `value.buffer` raises a TypeError
when `value` is `null`, hence the `Except` result. -/
def isJSONSerializable (value : JSValue) : Except String Bool :=
  match value with
  | .undefined => .ok false
  | _ =>
    let t := jsTypeof value
    if t = "string" ∨ t = "number" ∨ t = "boolean" then .ok true
    else if t ≠ "object" then .ok false
    else if isArray value then .ok true
    else
      match value with
      | .null => .error "TypeError: Cannot read properties of null"
      | .obj fields ctorName hasToJSON =>
        if jsTruthy (getFieldD fields "buffer") then .ok false
        else .ok (decide (ctorName = some "Object") || hasToJSON)
      | _ => .ok false

/-! ## JSON.stringify (string escaping and structural serialization) -/

/-- Hexadecimal digit used in `\u00..` escapes. -/
def hexDigit (n : Nat) : String :=
  if n < 10 then String.singleton (Char.ofNat (48 + n))
  else String.singleton (Char.ofNat (87 + n))

/-- Escape one character as `JSON.stringify` renders string contents. -/
def escapeJSONChar (c : Char) : String :=
  if c = '"' then "\\\""
  else if c = '\\' then "\\\\"
  else if c = Char.ofNat 8 then "\\b"
  else if c = Char.ofNat 9 then "\\t"
  else if c = Char.ofNat 10 then "\\n"
  else if c = Char.ofNat 12 then "\\f"
  else if c = Char.ofNat 13 then "\\r"
  else if c.toNat < 32 then "\\u00" ++ hexDigit (c.toNat / 16) ++ hexDigit (c.toNat % 16)
  else String.singleton c

/-- `JSON.stringify` applied to a string value. -/
def renderJSONString (s : String) : String :=
  "\"" ++ String.join (s.data.map escapeJSONChar) ++ "\""

mutual

/-- `JSON.stringify` on the modelled values. `undefined`, functions and
symbols serialize as `null` in array positions (the positions where the
pipeline can reach them after the serializability check); a `toJSON`
replacement is not modelled since no claim depends on its output. -/
def jsonStringify : JSValue → String
  | .undefined => "null"
  | .null => "null"
  | .str s => renderJSONString s
  | .num n => toString n
  | .boolean b => cond b "true" "false"
  | .bigintVal => "null"
  | .functionVal => "null"
  | .symbolVal => "null"
  | .arr elems => "[" ++ jsonStringifyArr elems ++ "]"
  | .obj fields _ _ => "\x7b" ++ jsonStringifyFields fields ++ "\x7d"

/-- Comma-separated serialization of array elements. -/
def jsonStringifyArr : List JSValue → String
  | [] => ""
  | [x] => jsonStringify x
  | x :: y :: rest => jsonStringify x ++ "," ++ jsonStringifyArr (y :: rest)

/-- Comma-separated serialization of object fields; fields holding
`undefined`, functions or symbols are omitted, as `JSON.stringify` does. -/
def jsonStringifyFields : List (String × JSValue) → String
  | [] => ""
  | (k, v) :: rest =>
    match v with
    | .undefined => jsonStringifyFields rest
    | .functionVal => jsonStringifyFields rest
    | .symbolVal => jsonStringifyFields rest
    | _ =>
      let tail := jsonStringifyFields rest
      renderJSONString k ++ ":" ++ jsonStringify v ++
        (if tail = "" then "" else "," ++ tail)

end

/-! ## Header container (the `Headers` collaborator) -/

/-- ASCII lower-casing, character by character (the names and media types
the pipeline compares are ASCII). -/
def jsToLower (s : String) : String := ⟨s.data.map Char.toLower⟩

/-- ASCII upper-casing, character by character (`String.prototype.toUpperCase`
as applied to HTTP method names). -/
def jsToUpper (s : String) : String := ⟨s.data.map Char.toUpper⟩

/-- Header field names are matched case-insensitively; the container stores
them normalized to lower case. -/
def hdrNorm (s : String) : String := jsToLower s

/-- A concrete header container: ordered field/value pairs with normalized
names, unique per name. -/
structure HeadersC where
  entries : List (String × String)
deriving DecidableEq

/-- Scan an entry list for the value stored under a normalized name. -/
def hdrLookup (l : List (String × String)) (name : String) : Option String :=
  match l with
  | [] => none
  | (k, v) :: t => if k = hdrNorm name then some v else hdrLookup t name

/-- `Headers.prototype.get`: the value stored under the (case-insensitive)
name, if any. -/
def HeadersC.get (h : HeadersC) (name : String) : Option String :=
  hdrLookup h.entries name

/-- `Headers.prototype.has`. -/
def HeadersC.hasName (h : HeadersC) (name : String) : Bool :=
  (h.get name).isSome

/-- `Headers.prototype.set`: replace any existing entry for the name. -/
def HeadersC.set (h : HeadersC) (name value : String) : HeadersC :=
  ⟨h.entries.filter (fun p => p.1 ≠ hdrNorm name) ++ [(hdrNorm name, value)]⟩

/-- `Headers.prototype.append`: combine with an existing value using a
comma separator, else add a new entry. -/
def HeadersC.append (h : HeadersC) (name value : String) : HeadersC :=
  match h.get name with
  | some _ =>
    ⟨h.entries.map (fun p =>
      if p.1 = hdrNorm name then (p.1, p.2 ++ ", " ++ value) else p)⟩
  | none => ⟨h.entries ++ [(hdrNorm name, value)]⟩

/-- A `HeadersInit` argument: a list of pairs (iterable), a plain record
(not iterable — the `Symbol.iterator in input` test fails for it), or an
existing `Headers` instance. -/
inductive HeadersInit where
  | pairs (l : List (String × String))
  | record (l : List (String × String))
  | headers (h : HeadersC)
deriving DecidableEq

/-- The pair sequence denoted by a `HeadersInit`. -/
def HeadersInit.toPairs : HeadersInit → List (String × String)
  | .pairs l => l
  | .record l => l
  | .headers h => h.entries

/-- `new Headers(init)`: start empty and append every pair of the init. -/
def HeadersC.ofInit : Option HeadersInit → HeadersC
  | none => ⟨[]⟩
  | some i => i.toPairs.foldl (fun h p => h.append p.1 p.2) ⟨[]⟩

/-- The iteration source chosen by `mergeHeaders` in src/utils.ts:
`Symbol.iterator in input || Array.isArray(input) ? input : new Headers(input)`
— pair lists and `Headers` instances are iterated directly, plain records go
through the `Headers` constructor first. -/
def iterSource : HeadersInit → List (String × String)
  | .pairs l => l
  | .headers h => h.entries
  | .record l => (HeadersC.ofInit (some (.record l))).entries

/-- `mergeHeaders` from src/utils.ts: without defaults, just construct from
the input; with defaults, construct from the defaults and `set` every input
pair over them. -/
def mergeHeaders (input defaults : Option HeadersInit) : HeadersC :=
  match defaults with
  | none => HeadersC.ofInit input
  | some d =>
    let headers := HeadersC.ofInit (some d)
    match input with
    | none => headers
    | some i => (iterSource i).foldl (fun h p => h.set p.1 p.2) headers

/-! ## Options and option resolution -/

/-- The `retry` option: absent, `false`, or a number. -/
inductive RetryOpt where
  | unset
  | disabled
  | num (n : Int)
deriving DecidableEq

/-- A query/params record; later entries shadow earlier ones on lookup,
matching object-spread semantics. -/
abbrev QueryRec := List (String × String)

/-- Lookup in a query record: the last binding of the key wins, as with
object spread. -/
def recGet (l : QueryRec) (k : String) : Option String :=
  ((l.filter (fun p => p.1 = k)).getLast?).map (·.2)

/-- `json | text | blob | arrayBuffer | stream`. -/
inductive RespType where
  | json
  | text
  | blob
  | arrayBuffer
  | stream
deriving DecidableEq

/-- The per-call / default option set (`FetchOptions` in src/types.ts),
restricted to the fields the specified computations read. Hook slots are
omitted: no claim depends on them and they do not influence the modelled
steps. `retryDelay` keeps only the numeric form (the function-valued form
receives the context and cannot occur positively in this inductive model;
no claim inspects the delay value). `hasParseResponse` records whether a
custom decoder was supplied; its application is not modelled. -/
structure FetchOptions where
  method : Option String := none
  baseURL : Option String := none
  body : Option JSValue := none
  headers : Option HeadersInit := none
  query : Option QueryRec := none
  params : Option QueryRec := none
  retry : RetryOpt := .unset
  retryDelay : Option Int := none
  retryStatusCodes : Option (List Nat) := none
  timeout : Option Nat := none
  hasSignal : Bool := false
  responseType : Option RespType := none
  hasParseResponse : Bool := false
  ignoreResponseError : Bool := false
  duplex : Option String := none

/-- Resolved options: as `FetchOptions` but with a concrete header
container (`ResolvedFetchOptions` in src/types.ts). -/
structure ResolvedFetchOptions where
  method : Option String := none
  baseURL : Option String := none
  body : Option JSValue := none
  headers : HeadersC := ⟨[]⟩
  query : Option QueryRec := none
  params : Option QueryRec := none
  retry : RetryOpt := .unset
  retryDelay : Option Int := none
  retryStatusCodes : Option (List Nat) := none
  timeout : Option Nat := none
  hasSignal : Bool := false
  responseType : Option RespType := none
  hasParseResponse : Bool := false
  ignoreResponseError : Bool := false
  duplex : Option String := none

/-- A request descriptor: a URL string or a pre-built `Request` object
carrying its own method, URL and headers. -/
inductive FetchRequest where
  | url (s : String)
  | req (method : String) (reqUrl : String) (headers : HeadersC)

/-- `(request as Request)?.headers` — only a pre-built request carries
headers. -/
def requestHeadersInit : FetchRequest → Option HeadersInit
  | .url _ => none
  | .req _ _ h => some (.headers h)

/-- Object-spread merge of two option sets, second over first
(`\x7b...a, ...b\x7d`): per field, `b`'s value wins when present. -/
def spreadOptions (a b : FetchOptions) : FetchOptions where
  method := b.method <|> a.method
  baseURL := b.baseURL <|> a.baseURL
  body := b.body <|> a.body
  headers := b.headers <|> a.headers
  query := b.query <|> a.query
  params := b.params <|> a.params
  retry := if b.retry = .unset then a.retry else b.retry
  retryDelay := b.retryDelay <|> a.retryDelay
  retryStatusCodes := b.retryStatusCodes <|> a.retryStatusCodes
  timeout := b.timeout <|> a.timeout
  hasSignal := b.hasSignal || a.hasSignal
  responseType := b.responseType <|> a.responseType
  hasParseResponse := b.hasParseResponse || a.hasParseResponse
  ignoreResponseError := b.ignoreResponseError || a.ignoreResponseError
  duplex := b.duplex <|> a.duplex

/-- `resolveFetchOptions` from src/utils.ts: headers are merged via
`mergeHeaders(input?.headers ?? request?.headers, defaults?.headers)`;
query and params are unioned by object spread when any is present; the
remaining fields follow `\x7b...defaults, ...input\x7d` with `query`,
`params` and `headers` then overwritten by the computed values. -/
def resolveFetchOptions (request : FetchRequest) (input defaults : Option FetchOptions) :
    ResolvedFetchOptions :=
  let headers := mergeHeaders
    ((input.bind (·.headers)) <|> requestHeadersInit request)
    (defaults.bind (·.headers))
  let query : Option QueryRec :=
    if (defaults.bind (·.query)).isSome ∨ (defaults.bind (·.params)).isSome
        ∨ (input.bind (·.params)).isSome ∨ (input.bind (·.query)).isSome then
      some (((defaults.bind (·.params)).getD [] ++ (defaults.bind (·.query)).getD [])
        ++ ((input.bind (·.params)).getD [] ++ (input.bind (·.query)).getD []))
    else none
  let merged := spreadOptions (defaults.getD {}) (input.getD {})
  { method := merged.method
    baseURL := merged.baseURL
    body := merged.body
    headers := headers
    query := query
    params := query
    retry := merged.retry
    retryDelay := merged.retryDelay
    retryStatusCodes := merged.retryStatusCodes
    timeout := merged.timeout
    hasSignal := merged.hasSignal
    responseType := merged.responseType
    hasParseResponse := merged.hasParseResponse
    ignoreResponseError := merged.ignoreResponseError
    duplex := merged.duplex }

/-- The defaults object built by `$fetch.create` in src/fetch.ts:
`\x7b...globalOptions.defaults, ...customGlobalOptions.defaults, ...defaultOptions\x7d`
— a plain object spread, field-wise at the top level only. -/
def createDefaults (globalDefaults customDefaults defaultOptions : Option FetchOptions) :
    FetchOptions :=
  spreadOptions (spreadOptions (globalDefaults.getD {}) (customDefaults.getD {}))
    (defaultOptions.getD {})

/-! ## Method classification and response-type detection (src/utils.ts) -/

/-- The payload-bearing methods. -/
def payloadMethods : List String := ["PATCH", "POST", "PUT", "DELETE"]

/-- `isPayloadMethod(method = "GET")`: the argument defaults to `GET` when
the option is absent, and is compared upper-cased. -/
def isPayloadMethod (method : Option String) : Bool :=
  payloadMethods.contains (jsToUpper (method.getD "GET"))

/-- Content types routed to the `text` strategy besides `text/*`. -/
def textTypes : List String :=
  ["image/svg", "application/xml", "application/xhtml", "application/html"]

/-- Characters admitted before `+json` by the JSON media-type pattern
`application/(?:[\w!#$%&*.^`~-]*\+)?json(;.+)?` (the `\w` class plus the
listed punctuation). -/
def jsonSubtypeChar (c : Char) : Bool :=
  c.isAlphanum || c = '_' || "!#$%&*.^`~-".contains c

/-- The JSON media-type test applied (case-insensitively) to a content type:
`application/json`, a vendor `application/...+json`, or either followed by a
`;` parameter section. -/
def matchesJSONType (ct : String) : Bool :=
  let s := jsToLower ct
  s.startsWith "application/" &&
    (let rest := s.drop 12
     let core := (rest.splitOn ";").headD ""
     (core = "json" && (rest = "json" || rest.length > core.length + 1)) ||
       (core.endsWith "+json" && (rest = core || rest.length > core.length + 1) &&
         (core.dropRight 5).all jsonSubtypeChar))

/-- `detectResponseType` from src/utils.ts: empty content type means JSON;
otherwise strip `;` parameters, classify JSON media types, the fixed text
types and any `text/*` as text, and everything else as blob. -/
def detectResponseType (ct : String) : RespType :=
  if ct = "" then .json
  else
    let contentType := ((ct.splitOn ";").headD "")
    if matchesJSONType contentType then .json
    else if textTypes.contains contentType || contentType.startsWith "text/" then .text
    else .blob

/-! ## Pipeline steps in $fetchRaw (src/fetch.ts) -/

/-- Status codes whose responses never carry a body. -/
def nullBodyResponses : List Nat := [101, 204, 205, 304]

/-- Default retry status codes (src/fetch.ts `retryStatusCodes`). -/
def retryStatusCodes : List Nat := [408, 409, 425, 429, 500, 502, 503, 504]

/-- Method normalization: `context.options.method = method.toUpperCase()`
when a method is set. -/
def normalizeMethod (opts : ResolvedFetchOptions) : ResolvedFetchOptions :=
  { opts with method := opts.method.map jsToUpper }

/-- `"pipeTo" in body && typeof body.pipeTo === "function"` or
`typeof body.pipe === "function"`. -/
def isStreamLike : JSValue → Bool
  | .obj fields _ _ =>
    (match fields.lookup "pipeTo" with
      | some v => jsTypeof v = "function"
      | none => false) ||
    jsTypeof (getFieldD fields "pipe") = "function"
  | _ => false

/-- `content-type` defaulting inside the JSON-body branch: set to
`application/json` only when not already present. -/
def addContentTypeHeader (h0 : HeadersC) : HeadersC :=
  if h0.hasName "content-type" then h0
  else h0.set "content-type" "application/json"

/-- `accept` defaulting inside the JSON-body branch. -/
def addAcceptHeader (h1 : HeadersC) : HeadersC :=
  if h1.hasName "accept" then h1 else h1.set "accept" "application/json"

/-- The header defaulting inside the JSON-body branch of `$fetchRaw`:
`content-type` then `accept` are each set to `application/json` only when
not already present. -/
def addJsonHeaders (h0 : HeadersC) : HeadersC :=
  addAcceptHeader (addContentTypeHeader h0)

/-- The body replacement in the JSON branch:
`typeof body === "string" ? body : JSON.stringify(body)`. -/
def serializedBody (body : JSValue) : JSValue :=
  match body with
  | .str s => .str s
  | _ => .str (jsonStringify body)

/-- The body-preparation step of `$fetchRaw` (src/fetch.ts lines 277-307):
for a truthy body on a payload-bearing method, a JSON-serializable body is
replaced by its JSON text (unless it is already a string) and the
`content-type` / `accept` headers default to `application/json` when absent;
a stream-like body enables half-duplex unless `duplex` is already set; any
other body passes through. The serializability probe itself can raise. -/
def prepareBody (opts : ResolvedFetchOptions) : Except String ResolvedFetchOptions :=
  match opts.body with
  | none => .ok opts
  | some body =>
    if jsTruthy body && isPayloadMethod opts.method then
      match isJSONSerializable body with
      | .error e => .error e
      | .ok true =>
        .ok { opts with body := some (serializedBody body)
                        headers := addJsonHeaders opts.headers }
      | .ok false =>
        if isStreamLike body then
          .ok (if opts.duplex.isSome then opts else { opts with duplex := some "half" })
        else .ok opts
    else .ok opts

/-- A JavaScript error value as the pipeline records and inspects it. -/
structure JSError where
  name : String := "Error"
  message : String := ""
  code : Option Int := none
deriving DecidableEq

/-- `Error.prototype.toString`: the name, then `: ` and the message when
both are nonempty. -/
def jsErrorToString (e : JSError) : String :=
  if e.name = "" then e.message
  else if e.message = "" then e.name
  else e.name ++ ": " ++ e.message

/-- The abort reason armed by the timeout in `$fetchRaw` (src/fetch.ts lines
310-322): an error renamed `TimeoutError` with code 23
(`DOMException.TIMEOUT_ERR`). -/
def timeoutAbortError : JSError :=
  { name := "TimeoutError"
    message := "[TimeoutError]: The operation was aborted due to timeout"
    code := some 23 }

/-- JavaScript truthiness of the `timeout` option (`undefined` and `0` are
falsy). -/
def timeoutTruthy : Option Nat → Bool
  | none => false
  | some n => n ≠ 0

/-- The timeout-arming condition in `$fetchRaw`:
`!context.options.signal && context.options.timeout`. -/
def armsTimeout (opts : ResolvedFetchOptions) : Bool :=
  !opts.hasSignal && timeoutTruthy opts.timeout

/-- A raw transport response as the decode step reads it. `hasBodyChannel`
is the truthiness of `response.body || response._bodyInit`. -/
structure RawResponse where
  status : Nat
  statusText : String := ""
  headers : HeadersC := ⟨[]⟩
  hasBodyChannel : Bool := true
  bodyText : String := ""
deriving DecidableEq

/-- The decoded-data representations the pipeline can store in `_data`. -/
inductive Decoded where
  | jsonOf (raw : String)
  | textOf (s : String)
  | blobOf (s : String)
  | arrayBufferOf (s : String)
  | streamOf
deriving DecidableEq

/-- The response-decoding step of `$fetchRaw` (src/fetch.ts lines 348-383),
returning the content of the `_data` slot: nothing unless a body channel is
present, the status is outside the null-body set and the method is not
`HEAD`; otherwise the strategy is `json` when a custom decoder was supplied,
else the explicit `responseType`, else the detected content type. -/
def decodeData (opts : ResolvedFetchOptions) (resp : RawResponse) : Option Decoded :=
  let hasBody := resp.hasBodyChannel &&
    !(nullBodyResponses.contains resp.status) &&
    !(opts.method == some "HEAD")
  if hasBody then
    let responseType :=
      ((if opts.hasParseResponse then some RespType.json else opts.responseType)).getD
        (detectResponseType ((resp.headers.get "content-type").getD ""))
    some (match responseType with
      | .json => .jsonOf resp.bodyText
      | .stream => .streamOf
      | .text => .textOf resp.bodyText
      | .blob => .blobOf resp.bodyText
      | .arrayBuffer => .arrayBufferOf resp.bodyText)
  else none

/-! ## Call context, error factory (src/error.ts) and retry handler -/

/-- The call context: request descriptor, resolved options, optional
response, optional recorded error. -/
structure FetchContext where
  request : FetchRequest
  options : ResolvedFetchOptions
  response : Option RawResponse := none
  error : Option JSError := none

/-- `(request as Request)?.method`. -/
def requestMethodOf : FetchRequest → Option String
  | .url _ => none
  | .req m _ _ => some m

/-- `(request as Request)?.url`. -/
def requestUrlOf : FetchRequest → Option String
  | .url _ => none
  | .req _ u _ => some u

/-- `String(request)`: the string itself, or the default object rendering
for a pre-built request. -/
def stringOfRequest : FetchRequest → String
  | .url s => s
  | .req _ _ _ => "[object Request]"

/-- JavaScript `||` on strings: the first operand unless it is empty. -/
def strOr (a b : String) : String := if a = "" then b else a

/-- The normalized error built by the error factory: composed message plus
a reference to the original failure (`cause`) and to the context pieces. -/
structure FetchErrorModel where
  name : String := "FetchError"
  message : String
  cause : Option JSError := none
  response : Option RawResponse := none

/-- The method part of the composed error message:
`(request as Request)?.method || ctx.options?.method || "GET"`. -/
def composedMethod (ctx : FetchContext) : String :=
  strOr ((requestMethodOf ctx.request).getD "")
    (strOr ((ctx.options.method).getD "") "GET")

/-- The URL part of the composed error message:
`(request as Request)?.url || String(ctx.request) || "/"`. -/
def composedUrl (ctx : FetchContext) : String :=
  strOr ((requestUrlOf ctx.request).getD "")
    (strOr (stringOfRequest ctx.request) "/")

/-- The status part of the composed error message:
`status statusText`, or `<no response>` without a response. -/
def statusPart (ctx : FetchContext) : String :=
  match ctx.response with
  | some r => toString r.status ++ " " ++ r.statusText
  | none => "<no response>"

/-- `[METHOD] JSON.stringify(url): statusPart` — the composed message before
the optional failure suffix. -/
def baseMessage (ctx : FetchContext) : String :=
  "[" ++ composedMethod ctx ++ "] " ++ renderJSONString (composedUrl ctx) ++
    ": " ++ statusPart ctx

/-- `ctx.error?.message || ctx.error?.toString() || ""`. -/
def causeMessagePart (ctx : FetchContext) : String :=
  match ctx.error with
  | some e => strOr e.message (strOr (jsErrorToString e) "")
  | none => ""

/-- `createFetchError` from src/error.ts: the message is
`[METHOD] JSON.stringify(url): status statusText` (or `<no response>`),
followed by a space and `error.message || error.toString() || ""` when that
is nonempty; METHOD is the descriptor method, else the option method, else
`GET`; the URL is the descriptor URL, else its string form, else `/`. -/
def createFetchError (ctx : FetchContext) : FetchErrorModel :=
  let errorMessage := causeMessagePart ctx
  { message := baseMessage ctx ++
      (if errorMessage = "" then "" else " " ++ errorMessage)
    cause := ctx.error
    response := ctx.response }

/-- The cancellation classification in `onError`:
`(context.error && context.error.name === "AbortError" && !context.options.timeout) || false`. -/
def isAbort (ctx : FetchContext) : Bool :=
  match ctx.error with
  | some e => e.name == "AbortError" && !timeoutTruthy ctx.options.timeout
  | none => false

/-- The retry budget computed in `onError`: the explicit numeric `retry`
option, else 0 for payload-bearing methods and 1 otherwise. -/
def effectiveRetries (opts : ResolvedFetchOptions) : Int :=
  match opts.retry with
  | .num n => n
  | _ => if isPayloadMethod opts.method then 0 else 1

/-- `(context.response && context.response.status) || 500`. -/
def observedStatus (ctx : FetchContext) : Nat :=
  match ctx.response with
  | some r => if r.status = 0 then 500 else r.status
  | none => 500

/-- The retry-status set consulted in `onError`: the caller's override list
when one was supplied (`Array.isArray(retryStatusCodes)`), else the default
set. -/
def effectiveRetryCodes (opts : ResolvedFetchOptions) : List Nat :=
  opts.retryStatusCodes.getD retryStatusCodes

/-- What `onError` does with a failed context: re-invoke the pipeline or
raise a normalized error. -/
inductive ErrorOutcome where
  | retryWith (request : FetchRequest) (opts : ResolvedFetchOptions) (delay : Int)
  | raise (e : FetchErrorModel)

/-- The decision procedure of `onError` (src/fetch.ts lines 168-219): when
retry is not disabled and the failure is not a non-retriable cancellation,
and the budget is positive with the observed status in the retry-status
set, re-invoke `$fetchRaw(context.request, \x7b...context.options,
retry: retries - 1\x7d)` after the computed delay; otherwise raise
`createFetchError(context)`. -/
def onErrorDecision (ctx : FetchContext) : ErrorOutcome :=
  if ctx.options.retry ≠ RetryOpt.disabled ∧ isAbort ctx = false then
    let retries := effectiveRetries ctx.options
    let responseCode := observedStatus ctx
    if 0 < retries ∧ responseCode ∈ effectiveRetryCodes ctx.options then
      let retryDelay := ctx.options.retryDelay.getD 0
      .retryWith ctx.request { ctx.options with retry := .num (retries - 1) } retryDelay
    else .raise (createFetchError ctx)
  else .raise (createFetchError ctx)

/-! ## Projections and specification-side definitions used in statements -/

/-- Whether the handler decided to retry. -/
def isRetryDecision : ErrorOutcome → Bool
  | .retryWith _ _ _ => true
  | .raise _ => false

/-- The options a retry decision re-invokes the pipeline with, if any. -/
def retryOptsOf : ErrorOutcome → Option ResolvedFetchOptions
  | .retryWith _ o _ => some o
  | .raise _ => none

/-- The body slot after a body-preparation step that did not raise. -/
def resolvedBodyOf : Except String ResolvedFetchOptions → Option JSValue
  | .ok o => o.body
  | .error _ => none

/-- A header read after a body-preparation step that did not raise. -/
def resolvedHeaderGet (r : Except String ResolvedFetchOptions) (k : String) : Option String :=
  match r with
  | .ok o => o.headers.get k
  | .error _ => none

/-- Whether the body slot holds a string after body preparation. -/
def bodyIsJSONText : Except String ResolvedFetchOptions → Bool
  | .ok o =>
    match o.body with
    | some (.str _) => true
    | _ => false
  | .error _ => false

/-- The last value written for a (case-insensitive) name by a sequence of
`set` calls over the given pairs. -/
def lastSetGet (l : List (String × String)) (k : String) : Option String :=
  match l with
  | [] => none
  | p :: t => (lastSetGet t k).or (if hdrNorm p.1 = hdrNorm k then some p.2 else none)

/-- Field-wise reading of the header merge the resolver actually performs:
the overlay layer (per-call headers when supplied, else descriptor headers)
wins per field over the defaults layer; without defaults the overlay is
just constructed; without an overlay the defaults are. -/
def mergedGetSpec (iOpt dOpt : Option HeadersInit) (k : String) : Option String :=
  match dOpt with
  | none => (HeadersC.ofInit iOpt).get k
  | some d =>
    match iOpt with
    | none => (HeadersC.ofInit (some d)).get k
    | some i => (lastSetGet (iterSource i) k).or ((HeadersC.ofInit (some d)).get k)

/-! ## Concrete inputs used by counterexamples and witnesses -/

/-- A failed GET attempt with default options: transport threw a plain
error, no response recorded. -/
def retryExampleCtx : FetchContext :=
  { request := .url "http://example.com/a"
    options := {}
    response := none
    error := some { name := "Error", message := "boom" } }

/-- A context whose recorded error is the armed timeout abort reason, with
`timeout: 100` configured and every other option left at its default. -/
def timeoutGetCtx : FetchContext :=
  { request := .url "http://example.com/slow"
    options := { timeout := some 100 }
    response := none
    error := some timeoutAbortError }

/-- Same failed call but with retry disabled by the caller. -/
def timeoutNoRetryCtx : FetchContext :=
  { request := .url "http://example.com/slow"
    options := { timeout := some 100, retry := .disabled }
    response := none
    error := some timeoutAbortError }

/-- Same failed call as a POST with retry left unset: the budget defaults
to 0 for the payload-bearing method. -/
def timeoutPostCtx : FetchContext :=
  { request := .url "http://example.com/slow"
    options := { method := some "POST", timeout := some 100 }
    response := none
    error := some timeoutAbortError }

/-- A pre-built request descriptor carrying its own `foo` header. -/
def c5Request : FetchRequest := .req "GET" "http://example.com/a" ⟨[("foo", "1")]⟩

/-- Per-call options supplying their own (disjoint) header set. -/
def c5Input : FetchOptions := { headers := some (.record [("bar", "3")]) }

/-- Existing instance defaults carrying a header and a query field. -/
def c6GlobalDefaults : FetchOptions :=
  { headers := some (.record [("x-header-a", "1")]), query := some [("a", "0")] }

/-- New defaults passed to `create`, with their own header and query. -/
def c6NewDefaults : FetchOptions :=
  { headers := some (.record [("x-header-b", "2")]), query := some [("b", "2")] }

/-- A plain object (constructor `Object`) carrying a truthy `buffer`
field. -/
def bufferObjectBody : JSValue := .obj [("buffer", .num 1)] (some "Object") false

/-- A POST whose body is that plain object. -/
def bufferBodyOpts : ResolvedFetchOptions :=
  { method := some "POST", body := some bufferObjectBody }

/-- A plain-object body for the serialization witness. -/
def plainObjectBody : JSValue := .obj [("a", .num 1)] (some "Object") false

/-- A POST (lower-case method) with a plain-object body and no headers. -/
def plainBodyOpts : ResolvedFetchOptions :=
  { method := some "post", body := some plainObjectBody }

/-- A HEAD call (lower-case, as the caller may write it). -/
def headCallOpts : ResolvedFetchOptions := { method := some "head" }

/-- A JSON 200 response with a body channel present. -/
def okJsonResponse : RawResponse :=
  { status := 200
    statusText := "OK"
    headers := ⟨[("content-type", "application/json")]⟩
    hasBodyChannel := true
    bodyText := "\x7b\"a\":1\x7d" }

/-- A 204 response that nevertheless reports a body channel. -/
def noContentResponse : RawResponse :=
  { status := 204
    statusText := "No Content"
    headers := ⟨[("content-type", "application/json")]⟩
    hasBodyChannel := true
    bodyText := "" }

/-- A context with a recorded failure whose `message` is empty but whose
`toString()` is not. -/
def emptyMessageErrorCtx : FetchContext :=
  { request := .url "http://example.com/a"
    options := {}
    response := none
    error := some { name := "CustomError", message := "" } }

/-- A POST to a fixed URL that returned `403 Forbidden`, with no underlying
failure recorded. -/
def post403Ctx : FetchContext :=
  { request := .url "http://example.com/item"
    options := { method := some "POST" }
    response := some { status := 403, statusText := "Forbidden" }
    error := none }

/-- A failed GET with a cause that does carry a message. -/
def causeMessageCtx : FetchContext :=
  { request := .url "http://example.com/a"
    options := {}
    response := none
    error := some { name := "Error", message := "boom" } }

/-! ## Helper lemmas about the header container -/

theorem hdrLookup_filter_set (l : List (String × String)) (n v k : String) :
    hdrLookup (l.filter (fun p => p.1 ≠ hdrNorm n) ++ [(hdrNorm n, v)]) k =
      if hdrNorm k = hdrNorm n then some v else hdrLookup l k := by
  induction l with
  | nil =>
    simp only [List.filter_nil, List.nil_append, hdrLookup]
    by_cases hk : hdrNorm k = hdrNorm n
    · rw [if_pos hk.symm, if_pos hk]
    · rw [if_neg (fun h => hk h.symm), if_neg hk]
  | cons a t ih =>
    obtain ⟨a1, a2⟩ := a
    have hcons : ∀ w, a1 ≠ hdrNorm w → hdrLookup ((a1, a2) :: t) w = hdrLookup t w :=
      fun w hw => by rw [hdrLookup, if_neg hw]
    by_cases ha : a1 = hdrNorm n
    · rw [List.filter_cons, if_neg (by simp [ha]), ih]
      by_cases hk : hdrNorm k = hdrNorm n
      · rw [if_pos hk, if_pos hk]
      · rw [if_neg hk, if_neg hk,
          hcons k (fun h => hk ((ha.symm.trans h).symm))]
    · rw [List.filter_cons, if_pos (by simp [ha]), List.cons_append, hdrLookup]
      by_cases hpk : a1 = hdrNorm k
      · rw [if_pos hpk, if_neg (fun h => ha (hpk.trans h)), hdrLookup, if_pos hpk]
      · rw [if_neg hpk, ih]
        by_cases hk : hdrNorm k = hdrNorm n
        · rw [if_pos hk, if_pos hk]
        · rw [if_neg hk, if_neg hk, hcons k hpk]

theorem HeadersC.set_get (h : HeadersC) (n v k : String) :
    (h.set n v).get k = if hdrNorm k = hdrNorm n then some v else h.get k :=
  hdrLookup_filter_set h.entries n v k

theorem foldlSet_get (l : List (String × String)) (h : HeadersC) (k : String) :
    (l.foldl (fun acc p => acc.set p.1 p.2) h).get k =
      (lastSetGet l k).or (h.get k) := by
  induction l generalizing h with
  | nil => rw [List.foldl_nil, lastSetGet, Option.none_or]
  | cons a t ih =>
    rw [List.foldl_cons, ih, HeadersC.set_get, lastSetGet]
    cases hlt : lastSetGet t k with
    | some w => rw [Option.or_some, Option.or_some, Option.or_some]
    | none =>
      rw [Option.none_or, Option.none_or]
      by_cases hk : hdrNorm k = hdrNorm a.1
      · rw [if_pos hk, if_pos hk.symm, Option.or_some]
      · rw [if_neg hk, if_neg (fun h => hk h.symm), Option.none_or]

theorem mergeHeaders_get (iOpt dOpt : Option HeadersInit) (k : String) :
    (mergeHeaders iOpt dOpt).get k = mergedGetSpec iOpt dOpt k := by
  cases dOpt with
  | none => rfl
  | some d =>
    cases iOpt with
    | none => rfl
    | some i => exact foldlSet_get (iterSource i) (HeadersC.ofInit (some d)) k

/-! ## Claim theorems -/

/-- C5 counterexample: with a pre-built descriptor carrying `foo: 1` and
per-call headers supplying only `bar: 3`, the resolved container has no
`foo` field at all, even though the descriptor-carried `foo` is visible in
isolation — the field set only on the descriptor does not survive when
per-call headers are supplied, contrary to the claimed three-layer merge. -/
theorem descriptor_header_dropped_counterexample :
    (resolveFetchOptions c5Request (some c5Input) none).headers.get "foo" = none ∧
    (HeadersC.ofInit (requestHeadersInit c5Request)).get "foo" = some "1" ∧
    (resolveFetchOptions c5Request (some c5Input) none).headers.get "bar" = some "3" :=
  ⟨by decide, by decide, by decide⟩

/-- C5 (amended): the resolved header container is the field-wise overlay
(last writer per field wins) of exactly two layers — the per-call headers
when supplied, else the descriptor-carried headers — over the defaults'
headers; descriptor-carried headers are consulted only when no per-call
headers are supplied. -/
theorem resolve_headers_precedence (req : FetchRequest) (input defaults : FetchOptions)
    (k : String) :
    (resolveFetchOptions req (some input) (some defaults)).headers.get k =
      mergedGetSpec (input.headers <|> requestHeadersInit req) defaults.headers k :=
  mergeHeaders_get (input.headers <|> requestHeadersInit req) defaults.headers k

/-- C6 counterexample: `create` with new defaults carrying their own
`headers`/`query` replaces the existing defaults' `headers`/`query` objects
wholesale — the field `x-header-a` (and query key `a`) from the existing
defaults is gone, contrary to the claimed field-wise union. -/
theorem create_replaces_headers_counterexample :
    (createDefaults (some c6GlobalDefaults) none (some c6NewDefaults)).headers =
      some (.record [("x-header-b", "2")]) ∧
    (HeadersC.ofInit
      (createDefaults (some c6GlobalDefaults) none (some c6NewDefaults)).headers).get
        "x-header-a" = none ∧
    (createDefaults (some c6GlobalDefaults) none (some c6NewDefaults)).query =
      some [("b", "2")] ∧
    recGet ((createDefaults (some c6GlobalDefaults) none
      (some c6NewDefaults)).query.getD []) "a" = none :=
  ⟨rfl, by decide, rfl, by decide⟩

/-- C6 (amended): the defaults object built by `create` follows simple
top-level override for every field: `headers` and `query` (like `method`
and the rest) are taken whole from the newest layer that sets them, not
merged field-wise. -/
theorem create_defaults_shallow_merge (g c n : FetchOptions) :
    (createDefaults (some g) (some c) (some n)).headers =
      (n.headers <|> (c.headers <|> g.headers)) ∧
    (createDefaults (some g) (some c) (some n)).query =
      (n.query <|> (c.query <|> g.query)) ∧
    (createDefaults (some g) (some c) (some n)).params =
      (n.params <|> (c.params <|> g.params)) ∧
    (createDefaults (some g) (some c) (some n)).method =
      (n.method <|> (c.method <|> g.method)) :=
  ⟨rfl, rfl, rfl, rfl⟩

/-- C10: the serializability classifier is not total — it raises a
TypeError on `null` (the `t === null` guard in the source compares the
string result of `typeof` with `null` and never fires, and the subsequent
`value.buffer` access throws), while it does return the documented
booleans on the other claimed inputs. -/
theorem isJSONSerializable_null_raises :
    isJSONSerializable .null = .error "TypeError: Cannot read properties of null" ∧
    isJSONSerializable .undefined = .ok false ∧
    isJSONSerializable (.str "a") = .ok true ∧
    isJSONSerializable (.num 3) = .ok true ∧
    isJSONSerializable (.boolean true) = .ok true ∧
    isJSONSerializable (.arr []) = .ok true ∧
    isJSONSerializable (.obj [] (some "Object") false) = .ok true ∧
    isJSONSerializable (.obj [("x", .num 1)] (some "Date") true) = .ok true ∧
    isJSONSerializable (.obj [("buffer", .arr [])] (some "Uint8Array") false) = .ok false :=
  ⟨rfl, rfl, rfl, rfl, rfl, rfl, rfl, rfl, rfl⟩

/-- C1: when retry is enabled and the failure is not a non-retriable
cancellation, the handler retries exactly when the remaining budget is
positive and the observed status (500 without a response) is in the
configured retry-status set (the caller's override list if provided, else
the default set), and a retry carries budget exactly one smaller, so the
budget strictly decreases along a chain. -/
theorem retry_decision_iff_and_decrements (ctx : FetchContext)
    (hret : ctx.options.retry ≠ RetryOpt.disabled)
    (habort : isAbort ctx = false) :
    (isRetryDecision (onErrorDecision ctx) = true ↔
      (0 < effectiveRetries ctx.options ∧
        observedStatus ctx ∈ effectiveRetryCodes ctx.options)) ∧
    (∀ opts, retryOptsOf (onErrorDecision ctx) = some opts →
      opts.retry = .num (effectiveRetries ctx.options - 1) ∧
      effectiveRetries opts = effectiveRetries ctx.options - 1 ∧
      effectiveRetries opts < effectiveRetries ctx.options) ∧
    (ctx.options.retryStatusCodes = none →
      effectiveRetryCodes ctx.options = [408, 409, 425, 429, 500, 502, 503, 504]) ∧
    (∀ l, ctx.options.retryStatusCodes = some l →
      effectiveRetryCodes ctx.options = l) := by
  have hcond : ctx.options.retry ≠ RetryOpt.disabled ∧ isAbort ctx = false :=
    ⟨hret, habort⟩
  refine ⟨?_, ?_, ?_, ?_⟩
  · simp only [onErrorDecision]
    rw [if_pos hcond]
    by_cases hc : 0 < effectiveRetries ctx.options ∧
        observedStatus ctx ∈ effectiveRetryCodes ctx.options
    · rw [if_pos hc]
      exact iff_of_true rfl hc
    · rw [if_neg hc]
      exact iff_of_false (by simp [isRetryDecision]) hc
  · intro opts h
    simp only [onErrorDecision] at h
    rw [if_pos hcond] at h
    by_cases hc : 0 < effectiveRetries ctx.options ∧
        observedStatus ctx ∈ effectiveRetryCodes ctx.options
    · rw [if_pos hc] at h
      simp only [retryOptsOf, Option.some.injEq] at h
      refine ⟨h ▸ rfl, h ▸ rfl, ?_⟩
      have heq : effectiveRetries opts = effectiveRetries ctx.options - 1 := h ▸ rfl
      rw [heq]
      exact sub_one_lt _
    · rw [if_neg hc] at h
      simp [retryOptsOf] at h
  · intro hnone
    simp [effectiveRetryCodes, hnone, retryStatusCodes]
  · intro l hl
    simp [effectiveRetryCodes, hl]

/-- C1 witness: a failed GET attempt with all-default options (budget 1,
no response, observed status 500) is retried. -/
theorem retry_decision_iff_and_decrements_witness :
    isRetryDecision (onErrorDecision retryExampleCtx) = true :=
  (retry_decision_iff_and_decrements retryExampleCtx (by decide)
    (by decide)).1.mpr (by decide)

/-- C2: without an explicit numeric retry count, the budget defaults to 0
for payload-bearing methods (POST, PUT, PATCH, DELETE, case-insensitive)
and to 1 for every other method, including an absent method. -/
theorem default_retry_budget (opts : ResolvedFetchOptions)
    (h : opts.retry = RetryOpt.unset ∨ opts.retry = RetryOpt.disabled) :
    effectiveRetries opts = (if isPayloadMethod opts.method then 0 else 1) ∧
    (opts.method = none → effectiveRetries opts = 1) ∧
    (∀ m, opts.method = some m →
      ((jsToUpper m = "POST" ∨ jsToUpper m = "PUT" ∨ jsToUpper m = "PATCH" ∨
          jsToUpper m = "DELETE") → effectiveRetries opts = 0) ∧
      (¬(jsToUpper m = "POST" ∨ jsToUpper m = "PUT" ∨ jsToUpper m = "PATCH" ∨
          jsToUpper m = "DELETE") → effectiveRetries opts = 1)) := by
  have hbase : effectiveRetries opts = if isPayloadMethod opts.method then 0 else 1 := by
    rcases h with h | h <;> simp [effectiveRetries, h]
  refine ⟨hbase, ?_, ?_⟩
  · intro hm
    rw [hbase, hm]
    decide
  · intro m hm
    have hpm : isPayloadMethod opts.method = payloadMethods.contains (jsToUpper m) := by
      rw [hm]; rfl
    constructor
    · intro hin
      have hc : payloadMethods.contains (jsToUpper m) = true := by
        rcases hin with h1 | h1 | h1 | h1 <;> rw [h1] <;> decide
      rw [hbase, hpm, hc]
      rfl
    · intro hnin
      have hc : payloadMethods.contains (jsToUpper m) = false := by
        cases hcc : payloadMethods.contains (jsToUpper m) with
        | false => rfl
        | true =>
          exfalso
          have hmem : jsToUpper m ∈ payloadMethods := by
            have := List.elem_eq_mem (jsToUpper m) payloadMethods
            rw [List.contains] at hcc
            rw [this] at hcc
            exact of_decide_eq_true hcc
          simp only [payloadMethods, List.mem_cons, List.not_mem_nil, or_false] at hmem
          rcases hmem with h1 | h1 | h1 | h1
          · exact hnin (Or.inr (Or.inr (Or.inl h1)))
          · exact hnin (Or.inl h1)
          · exact hnin (Or.inr (Or.inl h1))
          · exact hnin (Or.inr (Or.inr (Or.inr h1)))
      rw [hbase, hpm, hc]
      rfl

/-- C2 witness: a call with method `delete` (lower case) and no numeric
retry option gets budget 0; the default context (no method) gets 1. -/
theorem default_retry_budget_witness :
    effectiveRetries { method := some "delete" } = 0 ∧
    effectiveRetries ({} : ResolvedFetchOptions) = 1 :=
  ⟨((default_retry_budget { method := some "delete" } (Or.inl rfl)).2.2 "delete"
      rfl).1 (by decide),
    (default_retry_budget {} (Or.inl rfl)).2.1 rfl⟩

/-- C3: a failure is classified as a non-retriable cancellation exactly
when the recorded error has name `AbortError` and the call's `timeout`
option is falsy; the internally-armed timeout reason (named `TimeoutError`)
is never classified this way. -/
theorem abort_classification (ctx : FetchContext) :
    (isAbort ctx = true ↔
      ((∃ e, ctx.error = some e ∧ e.name = "AbortError") ∧
        timeoutTruthy ctx.options.timeout = false)) ∧
    (ctx.error = some timeoutAbortError → isAbort ctx = false) := by
  constructor
  · cases herr : ctx.error with
    | none => simp [isAbort, herr]
    | some e =>
      simp only [isAbort, herr, Bool.and_eq_true, beq_iff_eq, Bool.not_eq_true',
        Option.some.injEq]
      constructor
      · rintro ⟨hn, ht⟩
        exact ⟨⟨e, rfl, hn⟩, ht⟩
      · rintro ⟨⟨e2, he2, hn⟩, ht⟩
        exact ⟨he2 ▸ hn, ht⟩
  · intro herr
    simp [isAbort, herr, timeoutAbortError]

/-- C3 witness: the context of a timed-out call (timeout configured, error
recorded as the armed timeout reason) is not classified as a non-retriable
cancellation. -/
theorem abort_classification_witness :
    isAbort timeoutGetCtx = false :=
  (abort_classification timeoutGetCtx).2 rfl

/-- C4 counterexample: a call with `timeout: 100` whose transport never
responded (recorded error is the armed timeout reason, no response) and
with the retry option left at its default is RETRIED by the handler — the
timeout-initiated abort does not lead directly to rejection, and the
behaviour is not independent of the retry setting. -/
theorem timeout_retried_counterexample :
    onErrorDecision timeoutGetCtx =
      .retryWith (.url "http://example.com/slow")
        { timeout := some 100, retry := .num 0 } 0 := rfl

/-- C4 (amended): for a failure recorded as the armed timeout reason,
(a) when retry is disabled (`retry: false`) or the EFFECTIVE budget is 0 —
explicitly, or defaulted to 0 because the method is payload-bearing — the
handler raises the normalized error directly, whose cause is the timeout
reason with the distinguishing name `TimeoutError` and code 23; (b) with
retry enabled and a positive effective budget, a call with no response and
no override status list (observed status 500, which is in the default
retry set) is retried instead — the rejection is not independent of the
retry setting. -/
theorem timeout_retry_behavior (ctx : FetchContext)
    (herr : ctx.error = some timeoutAbortError) :
    ((ctx.options.retry = RetryOpt.disabled ∨ effectiveRetries ctx.options = 0) →
      onErrorDecision ctx = .raise (createFetchError ctx) ∧
      (createFetchError ctx).cause = some timeoutAbortError) ∧
    (ctx.options.retry ≠ RetryOpt.disabled → 0 < effectiveRetries ctx.options →
      ctx.response = none → ctx.options.retryStatusCodes = none →
      isRetryDecision (onErrorDecision ctx) = true) ∧
    timeoutAbortError.name = "TimeoutError" ∧
    timeoutAbortError.code = some 23 := by
  have habort : isAbort ctx = false := by
    simp [isAbort, herr, timeoutAbortError]
  refine ⟨?_, ?_, rfl, rfl⟩
  · intro hr
    refine ⟨?_, by simp [createFetchError, herr]⟩
    by_cases hd : ctx.options.retry = RetryOpt.disabled
    · simp only [onErrorDecision]
      rw [if_neg (fun hcon => hcon.1 hd)]
    · have hzero : effectiveRetries ctx.options = 0 := by
        rcases hr with hr | hr
        · exact absurd hr hd
        · exact hr
      simp only [onErrorDecision]
      rw [if_pos ⟨hd, habort⟩]
      rw [if_neg (fun hc => by rw [hzero] at hc; exact lt_irrefl 0 hc.1)]
  · intro hd hpos hresp hcodes
    have hobs : observedStatus ctx = 500 := by
      simp [observedStatus, hresp]
    have hmem : observedStatus ctx ∈ effectiveRetryCodes ctx.options := by
      rw [hobs]
      simp [effectiveRetryCodes, hcodes, retryStatusCodes]
    simp only [onErrorDecision]
    rw [if_pos ⟨hd, habort⟩, if_pos ⟨hpos, hmem⟩]
    rfl

/-- C4 witness: the timed-out call with `retry: false` and the timed-out
POST with retry unset (budget defaulted to 0) both raise directly, while
the timed-out GET with all-default options is retried. -/
theorem timeout_retry_behavior_witness :
    onErrorDecision timeoutNoRetryCtx = .raise (createFetchError timeoutNoRetryCtx) ∧
    onErrorDecision timeoutPostCtx = .raise (createFetchError timeoutPostCtx) ∧
    isRetryDecision (onErrorDecision timeoutGetCtx) = true :=
  ⟨((timeout_retry_behavior timeoutNoRetryCtx rfl).1 (Or.inl rfl)).1,
    ((timeout_retry_behavior timeoutPostCtx rfl).1 (Or.inr (by decide))).1,
    (timeout_retry_behavior timeoutGetCtx rfl).2.1 (by decide) (by decide) rfl rfl⟩

theorem addContentTypeHeader_get_ct (h : HeadersC) :
    (addContentTypeHeader h).get "content-type" =
      if h.hasName "content-type" then h.get "content-type"
      else some "application/json" := by
  unfold addContentTypeHeader
  by_cases hct : h.hasName "content-type"
  · rw [if_pos hct, if_pos hct]
  · rw [if_neg hct, if_neg hct, HeadersC.set_get, if_pos rfl]

theorem addContentTypeHeader_get_accept (h : HeadersC) :
    (addContentTypeHeader h).get "accept" = h.get "accept" := by
  unfold addContentTypeHeader
  by_cases hct : h.hasName "content-type"
  · rw [if_pos hct]
  · rw [if_neg hct, HeadersC.set_get, if_neg (by decide)]

theorem addAcceptHeader_get_accept (h : HeadersC) :
    (addAcceptHeader h).get "accept" =
      if h.hasName "accept" then h.get "accept" else some "application/json" := by
  unfold addAcceptHeader
  by_cases hac : h.hasName "accept"
  · rw [if_pos hac, if_pos hac]
  · rw [if_neg hac, if_neg hac, HeadersC.set_get, if_pos rfl]

theorem addAcceptHeader_get_ct (h : HeadersC) :
    (addAcceptHeader h).get "content-type" = h.get "content-type" := by
  unfold addAcceptHeader
  by_cases hac : h.hasName "accept"
  · rw [if_pos hac]
  · rw [if_neg hac, HeadersC.set_get, if_neg (by decide)]

theorem addJsonHeaders_get_ct (h : HeadersC) :
    (addJsonHeaders h).get "content-type" =
      if h.hasName "content-type" then h.get "content-type"
      else some "application/json" := by
  unfold addJsonHeaders
  rw [addAcceptHeader_get_ct, addContentTypeHeader_get_ct]

theorem addJsonHeaders_get_accept (h : HeadersC) :
    (addJsonHeaders h).get "accept" =
      if h.hasName "accept" then h.get "accept" else some "application/json" := by
  unfold addJsonHeaders
  rw [addAcceptHeader_get_accept]
  have h1 : (addContentTypeHeader h).hasName "accept" = h.hasName "accept" := by
    unfold HeadersC.hasName
    rw [addContentTypeHeader_get_accept]
  rw [h1, addContentTypeHeader_get_accept]

theorem prepareBody_serializable (opts : ResolvedFetchOptions) (body : JSValue)
    (hb : opts.body = some body) (ht : jsTruthy body = true)
    (hpm : isPayloadMethod opts.method = true)
    (hser : isJSONSerializable body = .ok true) :
    prepareBody opts = .ok { opts with
      body := some (serializedBody body)
      headers := addJsonHeaders opts.headers } := by
  simp only [prepareBody, hb]
  rw [if_pos (by rw [ht, hpm]; rfl)]
  rw [hser]

/-- C7 counterexample: a payload-bearing call whose body is the plain
object `\x7bbuffer: 1\x7d` (constructor `Object`) is passed through completely
untouched — the body is not replaced by JSON text and no header is set,
because the serializability probe rejects any object with a truthy
`buffer` field, plain or not. -/
theorem buffer_object_not_serialized_counterexample :
    prepareBody bufferBodyOpts = .ok bufferBodyOpts ∧
    bodyIsJSONText (prepareBody bufferBodyOpts) = false ∧
    isJSONSerializable bufferObjectBody = .ok false :=
  ⟨rfl, rfl, rfl⟩

/-- C7 (amended): for a payload-bearing call whose body is an array, or a
plain object (constructor `Object`) without a truthy `buffer` field, the
body is replaced by its JSON text serialization and `content-type` /
`accept` default to `application/json` exactly when not already set; a
nonempty string body passes through unserialized. -/
theorem json_body_serialization :
    (∀ (opts : ResolvedFetchOptions) (fields : List (String × JSValue)) (tj : Bool),
      opts.body = some (.obj fields (some "Object") tj) →
      jsTruthy (getFieldD fields "buffer") = false →
      isPayloadMethod opts.method = true →
      resolvedBodyOf (prepareBody opts) =
        some (.str (jsonStringify (.obj fields (some "Object") tj))) ∧
      resolvedHeaderGet (prepareBody opts) "content-type" =
        (if opts.headers.hasName "content-type" then opts.headers.get "content-type"
          else some "application/json") ∧
      resolvedHeaderGet (prepareBody opts) "accept" =
        (if opts.headers.hasName "accept" then opts.headers.get "accept"
          else some "application/json")) ∧
    (∀ (opts : ResolvedFetchOptions) (elems : List JSValue),
      opts.body = some (.arr elems) →
      isPayloadMethod opts.method = true →
      resolvedBodyOf (prepareBody opts) = some (.str (jsonStringify (.arr elems))) ∧
      resolvedHeaderGet (prepareBody opts) "content-type" =
        (if opts.headers.hasName "content-type" then opts.headers.get "content-type"
          else some "application/json")) ∧
    (∀ (opts : ResolvedFetchOptions) (s : String),
      opts.body = some (.str s) → s ≠ "" →
      isPayloadMethod opts.method = true →
      resolvedBodyOf (prepareBody opts) = some (.str s)) := by
  refine ⟨?_, ?_, ?_⟩
  · intro opts fields tj hb hbuf hpm
    have hser : isJSONSerializable (.obj fields (some "Object") tj) = .ok true := by
      simp [isJSONSerializable, jsTypeof, isArray, hbuf]
    have hp := prepareBody_serializable opts _ hb rfl hpm hser
    refine ⟨?_, ?_, ?_⟩
    · rw [hp]
      rfl
    · rw [hp]
      show (addJsonHeaders opts.headers).get "content-type" = _
      exact addJsonHeaders_get_ct opts.headers
    · rw [hp]
      show (addJsonHeaders opts.headers).get "accept" = _
      exact addJsonHeaders_get_accept opts.headers
  · intro opts elems hb hpm
    have hser : isJSONSerializable (.arr elems) = .ok true := by
      simp [isJSONSerializable, jsTypeof, isArray]
    have hp := prepareBody_serializable opts _ hb rfl hpm hser
    refine ⟨?_, ?_⟩
    · rw [hp]
      rfl
    · rw [hp]
      show (addJsonHeaders opts.headers).get "content-type" = _
      exact addJsonHeaders_get_ct opts.headers
  · intro opts s hb hs hpm
    have ht : jsTruthy (.str s) = true := by simp [jsTruthy, hs]
    have hser : isJSONSerializable (.str s) = .ok true := rfl
    have hp := prepareBody_serializable opts _ hb ht hpm hser
    rw [hp]
    rfl

/-- C7 witness: a lower-case `post` with body `\x7ba: 1\x7d` and no headers gets
a JSON-text body and both `content-type` and `accept` set to
`application/json`. -/
theorem json_body_serialization_witness :
    resolvedBodyOf (prepareBody plainBodyOpts) =
      some (.str (jsonStringify plainObjectBody)) ∧
    resolvedHeaderGet (prepareBody plainBodyOpts) "content-type" =
      some "application/json" ∧
    resolvedHeaderGet (prepareBody plainBodyOpts) "accept" =
      some "application/json" := by
  have h := json_body_serialization.1 plainBodyOpts [("a", JSValue.num 1)] false
    rfl (by decide) (by decide)
  exact ⟨h.1, by rw [h.2.1]; decide, by rw [h.2.2]; decide⟩

/-- C8: a response with status in \x7b101, 204, 205, 304\x7d, or belonging to a
HEAD call (case-insensitively, via method normalization), never has its
decoded-data slot populated, regardless of content type or configured
response type; and the slot is populated only when a body channel exists,
the status is outside the null-body set and the method is not HEAD. -/
theorem null_body_not_decoded :
    (∀ (opts : ResolvedFetchOptions) (resp : RawResponse),
      resp.status ∈ nullBodyResponses ∨ opts.method = some "HEAD" →
      decodeData opts resp = none) ∧
    (∀ (optsRaw : ResolvedFetchOptions) (resp : RawResponse) (m : String),
      optsRaw.method = some m → jsToUpper m = "HEAD" →
      decodeData (normalizeMethod optsRaw) resp = none) ∧
    (∀ (opts : ResolvedFetchOptions) (resp : RawResponse),
      (decodeData opts resp).isSome = true →
      resp.hasBodyChannel = true ∧ resp.status ∉ nullBodyResponses ∧
        opts.method ≠ some "HEAD") := by
  have key : ∀ (opts : ResolvedFetchOptions) (resp : RawResponse),
      resp.status ∈ nullBodyResponses ∨ opts.method = some "HEAD" →
      decodeData opts resp = none := by
    intro opts resp h
    rcases h with hstat | hhead
    · have hc : nullBodyResponses.contains resp.status = true := by
        simp [List.contains, List.elem_eq_mem, hstat]
      simp only [decodeData]
      rw [if_neg (fun habs => by rw [hc] at habs; simp at habs)]
    · simp [decodeData, hhead]
  refine ⟨key, ?_, ?_⟩
  · intro optsRaw resp m hm hup
    exact key (normalizeMethod optsRaw) resp
      (Or.inr (by simp [normalizeMethod, hm, hup]))
  · intro opts resp h
    by_cases hb : (resp.hasBodyChannel && !(nullBodyResponses.contains resp.status) &&
        !(opts.method == some "HEAD")) = true
    · simp only [Bool.and_eq_true] at hb
      obtain ⟨⟨hch, hnc⟩, hnm⟩ := hb
      refine ⟨hch, ?_, ?_⟩
      · intro hmem
        have hc : nullBodyResponses.contains resp.status = true := by
          simp [List.contains, List.elem_eq_mem, hmem]
        rw [hc] at hnc
        simp at hnc
      · intro hm
        rw [hm] at hnm
        simp at hnm
    · exfalso
      simp only [decodeData] at h
      rw [if_neg (fun hcc => hb hcc)] at h
      simp at h

/-- C8 witness: a 204 response with a JSON content type and a present body
channel is not decoded; neither is a 200 JSON response of a call whose
method was given as `head`. -/
theorem null_body_not_decoded_witness :
    decodeData ({} : ResolvedFetchOptions) noContentResponse = none ∧
    decodeData (normalizeMethod headCallOpts) okJsonResponse = none :=
  ⟨null_body_not_decoded.1 {} noContentResponse (Or.inl (by decide)),
    null_body_not_decoded.2.1 headCallOpts okJsonResponse "head" rfl (by decide)⟩

/-- C9 counterexample: a failure whose recorded cause has an EMPTY message
but a nonempty name still gets a suffix appended to the composed error
message (the source falls back to `error.toString()`), so the suffix is not
appended only when a cause message is present. -/
theorem error_message_tostring_fallback_counterexample :
    (createFetchError emptyMessageErrorCtx).message =
      "[GET] \"http://example.com/a\": <no response> CustomError" ∧
    (emptyMessageErrorCtx.error.map (fun e => e.message)) = some "" :=
  ⟨by decide, rfl⟩

/-- C9 (amended): the composed message is
`[METHOD] "url": status statusText` (with `<no response>` when no response
exists, METHOD from the descriptor, else the options, else `GET`), followed
by a space and the cause's message when that is nonempty, else by a space
and the cause's string rendering when that is nonempty, else by nothing;
in particular a POST returning `403 Forbidden` with no underlying failure
composes exactly `[POST] "url": 403 Forbidden`. -/
theorem error_message_composition :
    (∀ ctx : FetchContext, ctx.error = none →
      (createFetchError ctx).message = baseMessage ctx) ∧
    (∀ (ctx : FetchContext) (e : JSError), ctx.error = some e → e.message ≠ "" →
      (createFetchError ctx).message = baseMessage ctx ++ " " ++ e.message) ∧
    (∀ (ctx : FetchContext) (e : JSError), ctx.error = some e → e.message = "" →
      jsErrorToString e ≠ "" →
      (createFetchError ctx).message = baseMessage ctx ++ " " ++ jsErrorToString e) ∧
    (createFetchError post403Ctx).message =
      "[POST] \"http://example.com/item\": 403 Forbidden" := by
  refine ⟨?_, ?_, ?_, by decide⟩
  · intro ctx h
    simp [createFetchError, causeMessagePart, h]
  · intro ctx e h hm
    simp [createFetchError, causeMessagePart, h, strOr, hm, String.append_assoc]
  · intro ctx e h hm hts
    simp [createFetchError, causeMessagePart, h, strOr, hm, hts, String.append_assoc]

/-- C9 witness: with a cause carrying message `boom`, the composed message
is the base composition followed by a space and `boom`. -/
theorem error_message_composition_witness :
    (createFetchError causeMessageCtx).message =
      baseMessage causeMessageCtx ++ " " ++ "boom" :=
  error_message_composition.2.1 causeMessageCtx
    { name := "Error", message := "boom" } rfl (by decide)

end Ofetch
